import Mathlib

/-!
Shallow embedding of the persistence layer (`server/storage.ts`) and the
HTTP route handlers (`server/routes.ts`) of a clinic practice-management
application, together with proofs about their specified behavior.

Modelling conventions:
* a SQL table is a Lean list of rows, a query is a pure function on it;
* timestamps (JS `Date` values) are `Int` epoch milliseconds;
* SQL `DECIMAL(_, 2)` money amounts are `Int` hundredths;
* SQL `NULL` and absent JSON fields are `Option`;
* `LOWER(s)` / `s.toLowerCase()` is `strLower`; `LIKE` against the pattern
  `%q%` for a wildcard-free query `q` is substring containment on the
  character lists;
* `ORDER BY key DESC` is the insertion sort `sortByDesc key`;
* `randomUUID()` and `new Date()` are passed in as explicit arguments.
-/

/-- `LOWER(s)` in SQL / `s.toLowerCase()` in JS: lowercase every character. -/
def strLower (s : String) : String := ⟨s.data.map Char.toLower⟩

/-- `field LIKE '%pat%'` for a wildcard-free pattern `pat`: substring
containment of the character lists. -/
def strContains (s pat : String) : Bool := decide (pat.data <:+: s.data)

/-- `ORDER BY key DESC`: insert one element into a descending-ordered list. -/
def insertDesc (key : α → Int) (x : α) : List α → List α
  | [] => [x]
  | y :: ys => if key y ≤ key x then x :: y :: ys else y :: insertDesc key x ys

/-- `ORDER BY key DESC` as an insertion sort. -/
def sortByDesc (key : α → Int) : List α → List α
  | [] => []
  | x :: xs => insertDesc key x (sortByDesc key xs)

/-- A row of the `users` table of `shared/schema` (drizzle `pgTable`).
The `role` column is the `user_role` enum {doctor, receptionist}, held as a
string. -/
structure User where
  id : String
  username : String
  password : String
  fullName : String
  email : String
  role : String
  isActive : Bool
  createdAt : Int
deriving DecidableEq, Repr

/-- A row of the `patients` table of `shared/schema`.  `dateOfBirth` is a
text column holding an ISO date string; the `medicalHistory` / `allergies` /
`medications` columns are nullable jsonb string arrays. -/
structure Patient where
  id : String
  firstName : String
  lastName : String
  dateOfBirth : String
  phone : String
  email : Option String
  address : Option String
  emergencyContact : Option String
  emergencyPhone : Option String
  insurancePrimary : Option String
  insurancePolicyNumber : Option String
  insuranceGroupNumber : Option String
  medicalHistory : Option (List String)
  allergies : Option (List String)
  medications : Option (List String)
  notes : Option String
  isActive : Bool
  createdAt : Int
  updatedAt : Int
deriving DecidableEq, Repr

/-- The `InsertPatient` shape: `createInsertSchema(patients).omit(id,
createdAt, updatedAt)`.  Nullable columns are `Option` (a `none` standing
for an absent or null input); `isActive` is `Option` because the column has
a database default of `true` applied when the input omits it. -/
structure InsertPatient where
  firstName : String
  lastName : String
  dateOfBirth : String
  phone : String
  email : Option String
  address : Option String
  emergencyContact : Option String
  emergencyPhone : Option String
  insurancePrimary : Option String
  insurancePolicyNumber : Option String
  insuranceGroupNumber : Option String
  medicalHistory : Option (List String)
  allergies : Option (List String)
  medications : Option (List String)
  notes : Option String
  isActive : Option Bool
deriving DecidableEq, Repr

/-- `Partial<InsertPatient>`: every field optional.  For a nullable column
the inner `Option` is the stored value, the outer one marks presence of the
field in the patch object (absent fields are skipped by the query builder). -/
structure PatientPatch where
  firstName : Option String := none
  lastName : Option String := none
  dateOfBirth : Option String := none
  phone : Option String := none
  email : Option (Option String) := none
  address : Option (Option String) := none
  emergencyContact : Option (Option String) := none
  emergencyPhone : Option (Option String) := none
  insurancePrimary : Option (Option String) := none
  insurancePolicyNumber : Option (Option String) := none
  insuranceGroupNumber : Option (Option String) := none
  medicalHistory : Option (Option (List String)) := none
  allergies : Option (Option (List String)) := none
  medications : Option (Option (List String)) := none
  notes : Option (Option String) := none
  isActive : Option Bool := none
deriving DecidableEq, Repr

/-- A row of the `appointments` table of `shared/schema`.  `type` is the
`appointment_type` enum and `status` the `appointment_status` enum, both
held as strings; `patientId`, `doctorId` and `createdBy` are NOT NULL
foreign keys. -/
structure Appointment where
  id : String
  patientId : String
  doctorId : String
  appointmentDate : Int
  duration : Int
  type : String
  status : String
  reason : String
  notes : Option String
  checkedInAt : Option Int
  completedAt : Option Int
  createdBy : String
  createdAt : Int
  updatedAt : Int
deriving DecidableEq, Repr

/-- The `InsertAppointment` shape: `createInsertSchema(appointments).omit(
id, createdAt, updatedAt)`.  The defaulted `duration` / `status` columns are
carried explicitly: a validated input in this embedding always holds their
values. -/
structure InsertAppointment where
  patientId : String
  doctorId : String
  appointmentDate : Int
  duration : Int
  type : String
  status : String
  reason : String
  notes : Option String
  checkedInAt : Option Int
  completedAt : Option Int
  createdBy : String
deriving DecidableEq, Repr

/-- An entry of a procedure's structured medication list
({name, dosage, instructions}). -/
structure ProcMedication where
  name : String
  dosage : String
  instructions : String
deriving DecidableEq, Repr

/-- A row of the `procedures` table of `shared/schema`.  `status` is the
`procedure_status` enum held as a string; `medications` is a nullable jsonb
array of {name, dosage, instructions} records. -/
structure Procedure where
  id : String
  appointmentId : String
  patientId : String
  doctorId : String
  procedureType : String
  status : String
  scheduledDate : Int
  startTime : Option Int
  endTime : Option Int
  findings : Option String
  recommendations : Option String
  complications : Option String
  medications : Option (List ProcMedication)
  followUpRequired : Bool
  followUpInstructions : Option String
  pathologyOrdered : Bool
  pathologyResults : Option String
  createdAt : Int
  updatedAt : Int
deriving DecidableEq, Repr

/-- `Partial<InsertProcedure>`: every insertable column optional (the outer
`Option` marks presence of the field in the patch object). -/
structure ProcedurePatch where
  appointmentId : Option String := none
  patientId : Option String := none
  doctorId : Option String := none
  procedureType : Option String := none
  status : Option String := none
  scheduledDate : Option Int := none
  startTime : Option (Option Int) := none
  endTime : Option (Option Int) := none
  findings : Option (Option String) := none
  recommendations : Option (Option String) := none
  complications : Option (Option String) := none
  medications : Option (Option (List ProcMedication)) := none
  followUpRequired : Option Bool := none
  followUpInstructions : Option (Option String) := none
  pathologyOrdered : Option Bool := none
  pathologyResults : Option (Option String) := none
deriving DecidableEq, Repr

/-- A row of the `billing` table of `shared/schema`.  `status` is the
`billing_status` enum held as a string; the `DECIMAL(10, 2)` money columns
are `Int` hundredths, with `insuranceCovered` nullable (its column default
"0" is applied on insertion when absent). -/
structure Billing where
  id : String
  patientId : String
  appointmentId : Option String
  procedureId : Option String
  description : String
  amount : Int
  insuranceCovered : Option Int
  patientResponsibility : Int
  status : String
  billingDate : Int
  dueDate : Int
  paidDate : Option Int
  paymentMethod : Option String
  notes : Option String
  createdAt : Int
  updatedAt : Int
deriving DecidableEq, Repr

/-- The relational store the storage layer queries: the tables touched by
the verified operations (`patient_evolutions` carries no claim and is
omitted). -/
structure DB where
  users : List User
  patients : List Patient
  appointments : List Appointment
  procedures : List Procedure
  billing : List Billing
deriving DecidableEq, Repr

/-- `DatabaseStorage.getUserByUsername`: `SELECT * FROM users WHERE
username = ? LIMIT 1`. -/
def getUserByUsername (db : DB) (username : String) : Option User :=
  db.users.find? fun u => u.username == username

/-- `DatabaseStorage.getPatients`: active patients, newest first, with
`LIMIT limit OFFSET offset` (source defaults: 50 / 0). -/
def getPatients (db : DB) (limit offset : Nat) : List Patient :=
  ((sortByDesc (fun p => p.createdAt) (db.patients.filter fun p => p.isActive)).drop offset).take limit

/-- `DatabaseStorage.getPatient`: `SELECT * FROM patients WHERE id = ?
LIMIT 1`; no `isActive` condition. -/
def getPatient (db : DB) (id : String) : Option Patient :=
  db.patients.find? fun p => p.id == id

/-- The OR of the four `LIKE` conditions of `searchPatients`; the query is
lowercased once (`%${query.toLowerCase()}%`), the name and email columns go
through `LOWER`, the phone column is compared as stored. -/
def searchMatch (q : String) (p : Patient) : Bool :=
  strContains (strLower p.firstName) (strLower q) ||
  strContains (strLower p.lastName) (strLower q) ||
  strContains p.phone (strLower q) ||
  (match p.email with
   | some e => strContains (strLower e) (strLower q)
   | none => false)

/-- `DatabaseStorage.searchPatients`: active patients whose name, phone or
email matches the query. -/
def searchPatients (db : DB) (q : String) : List Patient :=
  db.patients.filter fun p => p.isActive && searchMatch q p

/-- `DatabaseStorage.createPatient`: spreads the validated input, assigns
the generated id (`allergies` / `medicalHistory` pass through, `x || null`
keeping absent values absent); row timestamps come from column defaults. -/
def createPatient (db : DB) (input : InsertPatient) (newId : String) (now : Int) : DB × Patient :=
  let row : Patient :=
    { id := newId
      firstName := input.firstName
      lastName := input.lastName
      dateOfBirth := input.dateOfBirth
      phone := input.phone
      email := input.email
      address := input.address
      emergencyContact := input.emergencyContact
      emergencyPhone := input.emergencyPhone
      insurancePrimary := input.insurancePrimary
      insurancePolicyNumber := input.insurancePolicyNumber
      insuranceGroupNumber := input.insuranceGroupNumber
      medicalHistory := input.medicalHistory
      allergies := input.allergies
      medications := input.medications
      notes := input.notes
      isActive := input.isActive.getD true
      createdAt := now
      updatedAt := now }
  ({ db with patients := db.patients ++ [row] }, row)

/-- Apply the `set` object of an UPDATE on `patients` to one stored row:
fields present in the object overwrite the stored value, absent fields are
left unchanged, and `updatedAt` is stamped. -/
def applyPatientPatch (p : Patient) (u : PatientPatch) (now : Int) : Patient :=
  { p with
    firstName := u.firstName.getD p.firstName
    lastName := u.lastName.getD p.lastName
    dateOfBirth := u.dateOfBirth.getD p.dateOfBirth
    phone := u.phone.getD p.phone
    email := u.email.getD p.email
    address := u.address.getD p.address
    emergencyContact := u.emergencyContact.getD p.emergencyContact
    emergencyPhone := u.emergencyPhone.getD p.emergencyPhone
    insurancePrimary := u.insurancePrimary.getD p.insurancePrimary
    insurancePolicyNumber := u.insurancePolicyNumber.getD p.insurancePolicyNumber
    insuranceGroupNumber := u.insuranceGroupNumber.getD p.insuranceGroupNumber
    medicalHistory := u.medicalHistory.getD p.medicalHistory
    allergies := u.allergies.getD p.allergies
    medications := u.medications.getD p.medications
    notes := u.notes.getD p.notes
    isActive := u.isActive.getD p.isActive
    updatedAt := now }

/-- `DatabaseStorage.updatePatient`: builds `updateData` from the partial
input plus `updatedAt = new Date()`, removes the `allergies` and
`medicalHistory` keys (`delete updateData.allergies; delete
updateData.medicalHistory`), runs `UPDATE patients SET ... WHERE id = ?
RETURNING *` and yields the first returned row. -/
def updatePatient (db : DB) (id : String) (input : PatientPatch) (now : Int) : DB × Option Patient :=
  let updateData := { input with allergies := none, medicalHistory := none }
  let updated := db.patients.map fun p =>
    if p.id == id then applyPatientPatch p updateData now else p
  ({ db with patients := updated }, (updated.filter fun p => p.id == id).head?)

/-- `DatabaseStorage.deletePatient`: soft delete — `UPDATE patients SET
isActive = false, updatedAt = now WHERE id = ? RETURNING *`, reporting
whether any row was returned. -/
def deletePatient (db : DB) (id : String) (now : Int) : DB × Bool :=
  let updated := db.patients.map fun p =>
    if p.id == id then { p with isActive := false, updatedAt := now } else p
  ({ db with patients := updated },
   decide (0 < ((updated.filter fun p => p.id == id).length)))

/-- The INNER JOIN of one appointment row with its patient and its doctor;
`none` when either reference does not resolve. -/
def joinRow (db : DB) (a : Appointment) : Option (Appointment × Patient × User) :=
  match db.patients.find? (fun p => p.id == a.patientId),
        db.users.find? (fun u => u.id == a.doctorId) with
  | some p, some u => some (a, p, u)
  | _, _ => none

/-- The WHERE clause of `getAppointments`: the range condition (`gte` AND
`lte`, both inclusive) applies only when both bounds are provided, otherwise
the condition is `undefined` (no filtering). -/
def apptWhere (startDate endDate : Option Int) (a : Appointment) : Bool :=
  match startDate, endDate with
  | some s, some e => decide (s ≤ a.appointmentDate) && decide (a.appointmentDate ≤ e)
  | _, _ => true

/-- `DatabaseStorage.getAppointments`: optional inclusive date range, inner
joins to patient and doctor, ordered by `appointmentDate DESC`. -/
def getAppointments (db : DB) (startDate endDate : Option Int) :
    List (Appointment × Patient × User) :=
  sortByDesc (fun r => r.1.appointmentDate)
    ((db.appointments.filter (apptWhere startDate endDate)).filterMap (joinRow db))

/-- `DatabaseStorage.getAppointment`: the joined row for one id
(`WHERE id = ? LIMIT 1`). -/
def getAppointment (db : DB) (id : String) : Option (Appointment × Patient × User) :=
  ((db.appointments.filter fun a => a.id == id).filterMap (joinRow db)).head?

/-- `DatabaseStorage.getTodaysAppointments`: `startOfDay` / `startOfNextDay`
stand for the locally computed `new Date(y, m, d)` and `new Date(y, m, d + 1)`
(local midnight today and local midnight tomorrow). -/
def getTodaysAppointments (db : DB) (startOfDay startOfNextDay : Int) :
    List (Appointment × Patient × User) :=
  getAppointments db (some startOfDay) (some startOfNextDay)

/-- `DatabaseStorage.createAppointment`: spreads the validated input and
assigns the generated id; row timestamps come from column defaults. -/
def createAppointment (db : DB) (input : InsertAppointment) (newId : String) (now : Int) :
    DB × Appointment :=
  let row : Appointment :=
    { id := newId
      patientId := input.patientId
      doctorId := input.doctorId
      appointmentDate := input.appointmentDate
      duration := input.duration
      type := input.type
      status := input.status
      reason := input.reason
      notes := input.notes
      checkedInAt := input.checkedInAt
      completedAt := input.completedAt
      createdBy := input.createdBy
      createdAt := now
      updatedAt := now }
  ({ db with appointments := db.appointments ++ [row] }, row)

/-- `DatabaseStorage.deleteAppointment`: hard delete — `DELETE FROM
appointments WHERE id = ?`, reporting `rowCount > 0`. -/
def deleteAppointment (db : DB) (id : String) : DB × Bool :=
  ({ db with appointments := db.appointments.filter fun a => !(a.id == id) },
   decide (0 < ((db.appointments.filter fun a => a.id == id).length)))

/-- Apply the `set` object of an UPDATE on `procedures` to one stored row. -/
def applyProcedurePatch (r : Procedure) (u : ProcedurePatch) (now : Int) : Procedure :=
  { r with
    appointmentId := u.appointmentId.getD r.appointmentId
    patientId := u.patientId.getD r.patientId
    doctorId := u.doctorId.getD r.doctorId
    procedureType := u.procedureType.getD r.procedureType
    status := u.status.getD r.status
    scheduledDate := u.scheduledDate.getD r.scheduledDate
    startTime := u.startTime.getD r.startTime
    endTime := u.endTime.getD r.endTime
    findings := u.findings.getD r.findings
    recommendations := u.recommendations.getD r.recommendations
    complications := u.complications.getD r.complications
    medications := u.medications.getD r.medications
    followUpRequired := u.followUpRequired.getD r.followUpRequired
    followUpInstructions := u.followUpInstructions.getD r.followUpInstructions
    pathologyOrdered := u.pathologyOrdered.getD r.pathologyOrdered
    pathologyResults := u.pathologyResults.getD r.pathologyResults
    updatedAt := now }

/-- `DatabaseStorage.updateProcedure`: builds `updateData` from the partial
input plus `updatedAt = new Date()`, removes the `medications` key
(`delete updateData.medications`), runs the UPDATE and yields the first
returned row. -/
def updateProcedure (db : DB) (id : String) (input : ProcedurePatch) (now : Int) :
    DB × Option Procedure :=
  let updateData := { input with medications := none }
  let updated := db.procedures.map fun r =>
    if r.id == id then applyProcedurePatch r updateData now else r
  ({ db with procedures := updated }, (updated.filter fun r => r.id == id).head?)

/-- The aggregate record returned by `getDashboardStats`. -/
structure DashboardStats where
  todayAppointments : Nat
  pendingProcedures : Nat
  activePatients : Nat
  monthlyRevenue : Int
deriving DecidableEq, Repr

/-- `gte(billing.paidDate, startOfMonth)`: a SQL comparison against NULL is
not satisfied. -/
def paidOnOrAfter (startOfMonth : Int) (b : Billing) : Bool :=
  match b.paidDate with
  | some d => decide (startOfMonth ≤ d)
  | none => false

/-- `DatabaseStorage.getDashboardStats`: today's joined appointment count,
scheduled procedures, active patients, and `COALESCE(SUM(amount), 0)` over
paid billing rows whose `paidDate` is on or after `startOfMonth` (the
locally computed `new Date(y, m, 1)`). -/
def getDashboardStats (db : DB) (startOfDay startOfNextDay startOfMonth : Int) :
    DashboardStats :=
  { todayAppointments := (getTodaysAppointments db startOfDay startOfNextDay).length
    pendingProcedures := (db.procedures.filter fun r => r.status == "scheduled").length
    activePatients := (db.patients.filter fun p => p.isActive).length
    monthlyRevenue :=
      ((db.billing.filter fun b => b.status == "paid" && paidOnOrAfter startOfMonth b).map
        fun b => b.amount).sum }

/-- A `User` as serialized by the login route: the `password` field has
been removed by destructuring before the response is produced. -/
structure PublicUser where
  id : String
  username : String
  fullName : String
  email : String
  role : String
  isActive : Bool
  createdAt : Int
deriving DecidableEq, Repr

/-- `const { password: _, ...userWithoutPassword } = user`. -/
def stripPassword (u : User) : PublicUser :=
  { id := u.id
    username := u.username
    fullName := u.fullName
    email := u.email
    role := u.role
    isActive := u.isActive
    createdAt := u.createdAt }

/-- `POST /api/auth/login` on a body that passed the login schema: 401 when
the user is missing or the stored password differs, otherwise 200 with the
password-stripped user.  (A body failing the schema is answered 400 before
this logic runs.) -/
def loginHandler (db : DB) (username password : String) : Nat × Option PublicUser :=
  match getUserByUsername db username with
  | none => (401, none)
  | some user =>
      if user.password != password then (401, none)
      else (200, some (stripPassword user))

/-- `GET /api/patients/:id`: 404 on an absent row, otherwise 200 with the
row — no `isActive` condition anywhere on this path. -/
def getPatientByIdHandler (db : DB) (id : String) : Nat × Option Patient :=
  match getPatient db id with
  | none => (404, none)
  | some p => (200, some p)

/-- `GET /api/appointments`: the optional `startDate` / `endDate` query
parameters (already coerced to timestamps) are handed to the storage layer. -/
def getAppointmentsHandler (db : DB) (startDate endDate : Option Int) :
    Nat × List (Appointment × Patient × User) :=
  (200, getAppointments db startDate endDate)

/-- Outcome of `schema.parse(body)`: a validated value, or a `ZodError`
carrying one entry per offending field. -/
inductive Parsed (α : Type) where
  | ok (value : α)
  | invalid (errors : List String)

/-- `POST /api/patients`: parse first; a `ZodError` is answered 400 with the
per-field error list and the storage layer is never reached, otherwise
`createPatient` runs and the handler answers 201. -/
def postPatientsHandler {β : Type} (db : DB) (parse : β → Parsed InsertPatient)
    (body : β) (newId : String) (now : Int) : Nat × Option (List String) × DB :=
  match parse body with
  | .invalid errs => (400, some errs, db)
  | .ok data => (201, none, (createPatient db data newId now).1)

/-- `POST /api/appointments`: same shape as `POST /api/patients` (the
string-to-date massaging happens inside `parse`). -/
def postAppointmentsHandler {β : Type} (db : DB) (parse : β → Parsed InsertAppointment)
    (body : β) (newId : String) (now : Int) : Nat × Option (List String) × DB :=
  match parse body with
  | .invalid errs => (400, some errs, db)
  | .ok data => (201, none, (createAppointment db data newId now).1)

/-- Follows the spec's words for the dashboard claim: the number of
appointments whose `appointmentDate` lies in the HALF-OPEN local-day
interval [startOfDay, startOfNextDay). -/
def todayCountHalfOpenSpec (db : DB) (startOfDay startOfNextDay : Int) : Nat :=
  (db.appointments.filter fun a =>
    decide (startOfDay ≤ a.appointmentDate) && decide (a.appointmentDate < startOfNextDay)).length

/-! ## Shared lemmas about the query-building blocks -/

theorem mem_insertDesc {key : α → Int} {x a : α} {l : List α} :
    a ∈ insertDesc key x l ↔ a = x ∨ a ∈ l := by
  induction l with
  | nil => simp [insertDesc]
  | cons y ys ih =>
      by_cases h : key y ≤ key x
      · simp [insertDesc, h]
      · simp [insertDesc, h, ih]
        tauto

theorem mem_sortByDesc {key : α → Int} {a : α} {l : List α} :
    a ∈ sortByDesc key l ↔ a ∈ l := by
  induction l with
  | nil => simp [sortByDesc]
  | cons y ys ih => simp [sortByDesc, mem_insertDesc, ih]

theorem length_insertDesc {key : α → Int} {x : α} {l : List α} :
    (insertDesc key x l).length = l.length + 1 := by
  induction l with
  | nil => simp [insertDesc]
  | cons y ys ih =>
      by_cases h : key y ≤ key x
      · simp [insertDesc, h]
      · simp [insertDesc, h, ih]

theorem length_sortByDesc {key : α → Int} {l : List α} :
    (sortByDesc key l).length = l.length := by
  induction l with
  | nil => rfl
  | cons y ys ih => simp [sortByDesc, length_insertDesc, ih]

theorem length_filterMap_isSome {f : α → Option β} {l : List α}
    (h : ∀ a ∈ l, (f a).isSome = true) : (l.filterMap f).length = l.length := by
  induction l with
  | nil => rfl
  | cons a t ih =>
      obtain ⟨b, hb⟩ := Option.isSome_iff_exists.1 (h a (List.mem_cons_self a t))
      rw [List.filterMap_cons, hb]
      simp only [List.length_cons]
      rw [ih fun x hx => h x (List.mem_cons_of_mem a hx)]

theorem find_key_of_unique {α : Type} (key : α → String) {l : List α} {p : α}
    (hp : p ∈ l) (huniq : ∀ q ∈ l, key q = key p → q = p) :
    l.find? (fun q => key q == key p) = some p := by
  induction l with
  | nil => cases hp
  | cons a t ih =>
      by_cases h : key a = key p
      · rw [List.find?_cons_of_pos _ (by simp [h])]
        exact congrArg some (huniq a (List.mem_cons_self a t) h)
      · rw [List.find?_cons_of_neg _ (by simp [h])]
        rcases List.mem_cons.1 hp with rfl | hmem
        · exact absurd rfl h
        · exact ih hmem fun q hq => huniq q (List.mem_cons_of_mem a hq)

theorem head_filter_map_update {α : Type} (key : α → String) (f : α → α)
    (hid : ∀ q, key (f q) = key q) {l : List α} {p : α}
    (hp : p ∈ l) (huniq : ∀ q ∈ l, key q = key p → q = p) :
    ((l.map fun q => if key q == key p then f q else q).filter
      fun q => key q == key p).head? = some (f p) := by
  induction l with
  | nil => cases hp
  | cons a t ih =>
      by_cases h : key a = key p
      · have ha : a = p := huniq a (List.mem_cons_self a t) h
        subst ha
        simp [List.filter_cons, hid]
      · rcases List.mem_cons.1 hp with rfl | hmem
        · exact absurd rfl h
        · have hbeq : (key a == key p) = false := by simp [h]
          simp only [List.map_cons, hbeq, Bool.false_eq_true, if_false, List.filter_cons]
          exact ih hmem fun q hq => huniq q (List.mem_cons_of_mem a hq)

theorem filter_update_length_pos {α : Type} (key : α → String) (f : α → α)
    (hid : ∀ q, key (f q) = key q) {l : List α} {p : α} (hp : p ∈ l) :
    0 < ((l.map fun q => if key q == key p then f q else q).filter
      fun q => key q == key p).length := by
  have himg : f p ∈ l.map fun q => if key q == key p then f q else q := by
    have := List.mem_map_of_mem (fun q => if key q == key p then f q else q) hp
    simpa using this
  have hmem : f p ∈ (l.map fun q => if key q == key p then f q else q).filter
      fun q => key q == key p :=
    List.mem_filter.2 ⟨himg, by simp [hid]⟩
  exact List.length_pos.2 (List.ne_nil_of_mem hmem)

/-! ## Concrete rows used by counterexamples and witnesses -/

/-- An active sample patient (the spec's "Maria Silva"). -/
def maria : Patient :=
  { id := "p1"
    firstName := "Maria"
    lastName := "Silva"
    dateOfBirth := "1990-01-01"
    phone := "5551234"
    email := some "maria@example.com"
    address := none
    emergencyContact := none
    emergencyPhone := none
    insurancePrimary := none
    insurancePolicyNumber := none
    insuranceGroupNumber := none
    medicalHistory := none
    allergies := none
    medications := none
    notes := none
    isActive := true
    createdAt := 0
    updatedAt := 0 }

/-- The seeded doctor account of `initializeDefaults`. -/
def drSarah : User :=
  { id := "u1"
    username := "doctor"
    password := "password"
    fullName := "Dr. Sarah Smith"
    email := "doctor@gastromed.com"
    role := "doctor"
    isActive := true
    createdAt := 0 }

/-- `maria` after a soft delete. -/
def inactiveMaria : Patient := { maria with isActive := false }

/-- A store whose only patient is already inactive. -/
def dbInactive : DB :=
  { users := [drSarah], patients := [inactiveMaria], appointments := [],
    procedures := [], billing := [] }

/-- A sample appointment referencing `maria` and `drSarah`. -/
def apptToday : Appointment :=
  { id := "a1"
    patientId := "p1"
    doctorId := "u1"
    appointmentDate := 36000000
    duration := 30
    type := "consultation"
    status := "scheduled"
    reason := "checkup"
    notes := none
    checkedInAt := none
    completedAt := none
    createdBy := "u1"
    createdAt := 0
    updatedAt := 0 }

/-- A store with one appointment. -/
def dbAppt : DB :=
  { users := [drSarah], patients := [maria], appointments := [apptToday],
    procedures := [], billing := [] }

/-! ## C1 — soft-delete of an already-inactive patient -/

/-- C1: counterexample — in a store whose only patient `p1` is already
inactive, `deletePatient "p1"` still returns `true` (the UPDATE's WHERE
clause matches on id alone), not the `false` the claim states for the
second call. -/
theorem deletePatient_inactive_returns_true_counterexample :
    inactiveMaria.isActive = false ∧ (deletePatient dbInactive "p1" 7).2 ≠ false := by
  decide

/-- C1 (amended): `deletePatient` returns `true` whenever some stored row
has the given id — in particular on a repeated call for an already-inactive
patient — and an inactive patient appears in neither `getPatients` nor
`searchPatients`. -/
theorem deletePatient_inactive_spec (db : DB) (p : Patient) (now : Int)
    (limit offset : Nat) (q : String)
    (hp : p ∈ db.patients) (hin : p.isActive = false) :
    (deletePatient db p.id now).2 = true
  ∧ p ∉ getPatients db limit offset
  ∧ p ∉ searchPatients db q := by
  refine ⟨?_, ?_, ?_⟩
  · have hpos := filter_update_length_pos Patient.id
      (fun x => { x with isActive := false, updatedAt := now }) (fun _ => rfl) hp
    simpa [deletePatient] using hpos
  · intro hmem
    simp only [getPatients] at hmem
    have h1 := List.take_subset _ _ hmem
    have h2 := List.drop_subset _ _ h1
    have h3 := mem_sortByDesc.1 h2
    have h4 := (List.mem_filter.1 h3).2
    rw [hin] at h4
    cases h4
  · intro hmem
    simp only [searchPatients] at hmem
    have h4 := (List.mem_filter.1 hmem).2
    rw [hin] at h4
    simp at h4

/-- C1 witness at a concrete store. -/
theorem deletePatient_inactive_spec_witness :
    (deletePatient dbInactive inactiveMaria.id 7).2 = true
  ∧ inactiveMaria ∉ getPatients dbInactive 50 0
  ∧ inactiveMaria ∉ searchPatients dbInactive "mar" :=
  deletePatient_inactive_spec dbInactive inactiveMaria 7 50 0 "mar" (by decide) (by decide)

/-! ## C6 — hard delete of appointments -/

/-- C6: appointment deletion is hard — once `deleteAppointment id` has
returned `true`, `getAppointment id` on the resulting store is absent and a
second `deleteAppointment id` returns `false`. -/
theorem deleteAppointment_hard (db : DB) (id : String)
    (h : (deleteAppointment db id).2 = true) :
    getAppointment (deleteAppointment db id).1 id = none
  ∧ (deleteAppointment (deleteAppointment db id).1 id).2 = false := by
  have hnil : ((db.appointments.filter fun a => !(a.id == id)).filter
      fun a => a.id == id) = [] := by
    refine List.filter_eq_nil_iff.2 fun a ha => ?_
    have hmem := (List.mem_filter.1 ha).2
    simp only [Bool.not_eq_true'] at hmem
    simp [hmem]
  refine ⟨?_, ?_⟩
  · simp [getAppointment, deleteAppointment, hnil]
  · simp [deleteAppointment, hnil]

/-- C6 witness at a concrete store. -/
theorem deleteAppointment_hard_witness :
    getAppointment (deleteAppointment dbAppt "a1").1 "a1" = none
  ∧ (deleteAppointment (deleteAppointment dbAppt "a1").1 "a1").2 = false :=
  deleteAppointment_hard dbAppt "a1" (by decide)

/-! ## C2 — the dashboard's today-appointment window -/

/-- An appointment at exactly local midnight tomorrow. -/
def apptMidnightNext : Appointment :=
  { apptToday with id := "a2", appointmentDate := 86400000 }

/-- A store whose only appointment sits exactly on the next-day boundary. -/
def dbMidnight : DB :=
  { users := [drSarah], patients := [maria], appointments := [apptMidnightNext],
    procedures := [], billing := [] }

/-- C2: counterexample — with `startOfDay = 0` and `startOfNextDay =
86400000`, the single appointment at exactly 86400000 (00:00:00 tomorrow)
IS counted by the dashboard (`lte` bound), so the count differs from the
spec's half-open-interval count. -/
theorem todayAppointments_halfopen_counterexample :
    (getDashboardStats dbMidnight 0 86400000 0).todayAppointments
      ≠ todayCountHalfOpenSpec dbMidnight 0 86400000 := by
  decide

/-- C2 (amended): when every appointment's patient and doctor references
resolve, `todayAppointments` counts the appointments whose date lies in the
CLOSED interval [startOfDay, startOfNextDay] — an appointment at 23:59:59
today is counted, and one at exactly 00:00:00 tomorrow is counted as well. -/
theorem todayAppointments_closed_interval (db : DB) (sod sond som : Int)
    (hjoin : ∀ a ∈ db.appointments, (joinRow db a).isSome = true) :
    (getDashboardStats db sod sond som).todayAppointments
      = (db.appointments.filter fun a =>
          decide (sod ≤ a.appointmentDate) && decide (a.appointmentDate ≤ sond)).length := by
  have hlen : (getDashboardStats db sod sond som).todayAppointments
      = ((db.appointments.filter (apptWhere (some sod) (some sond))).filterMap
          (joinRow db)).length := by
    simp [getDashboardStats, getTodaysAppointments, getAppointments, length_sortByDesc]
  rw [hlen, length_filterMap_isSome fun a ha => hjoin a (List.mem_of_mem_filter ha)]
  rfl

/-- An appointment one second before local midnight tomorrow. -/
def apptLateNight : Appointment :=
  { apptToday with id := "a3", appointmentDate := 86399000 }

/-- A store whose only appointment is at 23:59:59 of the local day. -/
def dbLateNight : DB :=
  { users := [drSarah], patients := [maria], appointments := [apptLateNight],
    procedures := [], billing := [] }

/-- C2 witness at a concrete store. -/
theorem todayAppointments_closed_interval_witness :
    (getDashboardStats dbLateNight 0 86400000 0).todayAppointments
      = (dbLateNight.appointments.filter fun a =>
          decide ((0 : Int) ≤ a.appointmentDate) && decide (a.appointmentDate ≤ 86400000)).length :=
  todayAppointments_closed_interval dbLateNight 0 86400000 0 (by decide)

/-! ## C10 — the appointment range filter is all-or-nothing -/

/-- C10: `getAppointments` filters by date only when BOTH bounds are given:
supplying exactly one bound produces the same result as supplying none, the
route answers 200 with that unfiltered list, and every joinable stored
appointment is in the response. -/
theorem getAppointments_single_bound (db : DB) (s e : Int) :
    getAppointments db (some s) none = getAppointments db none none
  ∧ getAppointments db none (some e) = getAppointments db none none
  ∧ getAppointmentsHandler db (some s) none = (200, getAppointments db none none)
  ∧ ∀ a ∈ db.appointments, ∀ row, joinRow db a = some row →
      row ∈ getAppointments db (some s) none := by
  have h1 : getAppointments db (some s) none = getAppointments db none none := rfl
  refine ⟨h1, rfl, by simp [getAppointmentsHandler, h1], ?_⟩
  intro a ha row hrow
  simp only [getAppointments, mem_sortByDesc]
  exact List.mem_filterMap.2 ⟨a, List.mem_filter.2 ⟨ha, rfl⟩, hrow⟩

/-- The joined row for `apptToday`. -/
def rowToday : Appointment × Patient × User := (apptToday, maria, drSarah)

/-- C10 witness at a concrete store. -/
theorem getAppointments_single_bound_witness :
    getAppointments dbAppt (some 5) none = getAppointments dbAppt none none
  ∧ rowToday ∈ getAppointments dbAppt (some 5) none :=
  ⟨(getAppointments_single_bound dbAppt 5 7).1,
   (getAppointments_single_bound dbAppt 5 7).2.2.2 apptToday (by decide) rowToday (by decide)⟩

/-! ## C3 — which array-typed fields does update strip? -/

/-- A patch supplying only `medications`. -/
def medsPatch : PatientPatch := { medications := some (some ["aspirin"]) }

/-- C3: counterexample — `updatePatient` does NOT strip `medications`: a
supplied `medications` value is persisted onto the stored row (only the
`allergies` and `medicalHistory` keys are deleted from the update object). -/
theorem updatePatient_medications_counterexample :
    ((updatePatient dbAppt "p1" medsPatch 9).2.map fun p => p.medications)
      ≠ some maria.medications := by
  decide

/-- C3 (amended): `updatePatient` strips `medicalHistory` and `allergies`
(those stored fields stay unchanged) but a supplied `medications` value IS
persisted like every other supplied field; `updateProcedure` strips its
`medications` field and merges the rest. -/
theorem update_strips_fields (db : DB) (p : Patient) (u : PatientPatch)
    (r : Procedure) (v : ProcedurePatch) (now : Int)
    (hp : p ∈ db.patients) (hup : ∀ q ∈ db.patients, q.id = p.id → q = p)
    (hr : r ∈ db.procedures) (hur : ∀ q ∈ db.procedures, q.id = r.id → q = r) :
    (∃ p2, (updatePatient db p.id u now).2 = some p2
      ∧ p2.medicalHistory = p.medicalHistory
      ∧ p2.allergies = p.allergies
      ∧ p2.medications = u.medications.getD p.medications
      ∧ p2.firstName = u.firstName.getD p.firstName
      ∧ p2.phone = u.phone.getD p.phone
      ∧ p2.notes = u.notes.getD p.notes
      ∧ p2.isActive = u.isActive.getD p.isActive
      ∧ p2.updatedAt = now)
  ∧ (∃ r2, (updateProcedure db r.id v now).2 = some r2
      ∧ r2.medications = r.medications
      ∧ r2.findings = v.findings.getD r.findings
      ∧ r2.status = v.status.getD r.status
      ∧ r2.updatedAt = now) := by
  constructor
  · refine ⟨applyPatientPatch p { u with allergies := none, medicalHistory := none } now,
      ?_, rfl, rfl, rfl, rfl, rfl, rfl, rfl, rfl⟩
    have hhead := head_filter_map_update Patient.id
      (fun x => applyPatientPatch x { u with allergies := none, medicalHistory := none } now)
      (fun _ => rfl) hp hup
    simpa [updatePatient] using hhead
  · refine ⟨applyProcedurePatch r { v with medications := none } now,
      ?_, rfl, rfl, rfl, rfl⟩
    have hhead := head_filter_map_update Procedure.id
      (fun x => applyProcedurePatch x { v with medications := none } now)
      (fun _ => rfl) hr hur
    simpa [updateProcedure] using hhead

/-- A sample procedure referencing `apptToday`, `maria` and `drSarah`. -/
def colonoscopy : Procedure :=
  { id := "pr1"
    appointmentId := "a1"
    patientId := "p1"
    doctorId := "u1"
    procedureType := "colonoscopy"
    status := "scheduled"
    scheduledDate := 40000000
    startTime := none
    endTime := none
    findings := none
    recommendations := none
    complications := none
    medications := some [⟨"propofol", "200mg", "iv"⟩]
    followUpRequired := false
    followUpInstructions := none
    pathologyOrdered := false
    pathologyResults := none
    createdAt := 0
    updatedAt := 0 }

/-- A store with one patient, one appointment and one procedure. -/
def dbClinic : DB :=
  { users := [drSarah], patients := [maria], appointments := [apptToday],
    procedures := [colonoscopy], billing := [] }

/-- A procedure patch supplying a status and a medications value. -/
def procPatch : ProcedurePatch := { status := some "completed", medications := some none }

/-- C3 witness at a concrete store. -/
theorem update_strips_fields_witness :
    (∃ p2, (updatePatient dbClinic maria.id medsPatch 9).2 = some p2
      ∧ p2.medicalHistory = maria.medicalHistory
      ∧ p2.allergies = maria.allergies
      ∧ p2.medications = medsPatch.medications.getD maria.medications
      ∧ p2.firstName = medsPatch.firstName.getD maria.firstName
      ∧ p2.phone = medsPatch.phone.getD maria.phone
      ∧ p2.notes = medsPatch.notes.getD maria.notes
      ∧ p2.isActive = medsPatch.isActive.getD maria.isActive
      ∧ p2.updatedAt = 9)
  ∧ (∃ r2, (updateProcedure dbClinic colonoscopy.id procPatch 9).2 = some r2
      ∧ r2.medications = colonoscopy.medications
      ∧ r2.findings = procPatch.findings.getD colonoscopy.findings
      ∧ r2.status = procPatch.status.getD colonoscopy.status
      ∧ r2.updatedAt = 9) :=
  update_strips_fields dbClinic maria medsPatch colonoscopy procPatch 9
    (by decide) (by decide) (by decide) (by decide)

/-! ## C9 — inactive patients remain reachable by id -/

/-- C9: an inactive patient is still found by `getPatient` (the id lookup
has no `isActive` condition), `GET /api/patients/:id` answers 200 with the
inactive row rather than 404, and `updatePatient` still matches the row —
so it can modify or reactivate it. -/
theorem inactive_patient_by_id (db : DB) (p : Patient) (u : PatientPatch) (now : Int)
    (hp : p ∈ db.patients) (hin : p.isActive = false)
    (huniq : ∀ q ∈ db.patients, q.id = p.id → q = p) :
    getPatient db p.id = some p
  ∧ getPatientByIdHandler db p.id = (200, some p)
  ∧ (updatePatient db p.id u now).2
      = some (applyPatientPatch p { u with allergies := none, medicalHistory := none } now) := by
  have hfind : db.patients.find? (fun q => q.id == p.id) = some p :=
    find_key_of_unique Patient.id hp huniq
  refine ⟨hfind, ?_, ?_⟩
  · simp [getPatientByIdHandler, getPatient, hfind]
  · have hhead := head_filter_map_update Patient.id
      (fun x => applyPatientPatch x { u with allergies := none, medicalHistory := none } now)
      (fun _ => rfl) hp huniq
    simpa [updatePatient] using hhead

/-- A patch that reactivates a patient. -/
def reactivatePatch : PatientPatch := { isActive := some true }

/-- C9 witness at a concrete store. -/
theorem inactive_patient_by_id_witness :
    getPatient dbInactive inactiveMaria.id = some inactiveMaria
  ∧ getPatientByIdHandler dbInactive inactiveMaria.id = (200, some inactiveMaria)
  ∧ (updatePatient dbInactive inactiveMaria.id reactivatePatch 5).2
      = some (applyPatientPatch inactiveMaria
          { reactivatePatch with allergies := none, medicalHistory := none } 5) :=
  inactive_patient_by_id dbInactive inactiveMaria reactivatePatch 5
    (by decide) (by decide) (by decide)

/-! ## C4 — monthly revenue -/

/-- The month condition on a nullable `paidDate` is decidable by cases. -/
instance (o : Option Int) (m : Int) : Decidable (∃ d, o = some d ∧ m ≤ d) :=
  match o with
  | none => isFalse (by simp)
  | some d => if h : m ≤ d then isTrue ⟨d, rfl, h⟩ else isFalse (by simp [h])

/-- C4: `monthlyRevenue` is the sum of `amount` over exactly the billing
rows with status "paid" and a non-null `paidDate` on or after the start of
the current month; when no row qualifies it is the number 0. -/
theorem monthlyRevenue_spec (db : DB) (sod sond som : Int) :
    (getDashboardStats db sod sond som).monthlyRevenue
      = ((db.billing.filter fun b : Billing =>
            decide (b.status = "paid" ∧ ∃ d, b.paidDate = some d ∧ som ≤ d)).map
          fun b => b.amount).sum
  ∧ ((∀ b ∈ db.billing, ¬(b.status = "paid" ∧ ∃ d, b.paidDate = some d ∧ som ≤ d)) →
      (getDashboardStats db sod sond som).monthlyRevenue = 0) := by
  have hpred : ∀ b ∈ db.billing,
      (b.status == "paid" && paidOnOrAfter som b)
        = decide (b.status = "paid" ∧ ∃ d, b.paidDate = some d ∧ som ≤ d) := by
    intro b _
    apply Bool.eq_iff_iff.2
    cases hpd : b.paidDate with
    | none => simp [paidOnOrAfter, hpd]
    | some d => simp [paidOnOrAfter, hpd]
  have hfil : (db.billing.filter fun b => b.status == "paid" && paidOnOrAfter som b)
      = db.billing.filter fun b : Billing =>
          decide (b.status = "paid" ∧ ∃ d, b.paidDate = some d ∧ som ≤ d) :=
    List.filter_congr hpred
  constructor
  · simp only [getDashboardStats]
    rw [hfil]
  · intro hnone
    have hnil : (db.billing.filter fun b : Billing =>
        decide (b.status = "paid" ∧ ∃ d, b.paidDate = some d ∧ som ≤ d)) = [] := by
      refine List.filter_eq_nil_iff.2 fun b hb => ?_
      simp [hnone b hb]
    simp only [getDashboardStats]
    rw [hfil, hnil]
    rfl

/-- A pending billing row (never counted). -/
def unpaidBill : Billing :=
  { id := "b1"
    patientId := "p1"
    appointmentId := none
    procedureId := none
    description := "consult"
    amount := 15000
    insuranceCovered := none
    patientResponsibility := 15000
    status := "pending"
    billingDate := 10
    dueDate := 20
    paidDate := none
    paymentMethod := none
    notes := none
    createdAt := 0
    updatedAt := 0 }

/-- A billing row paid before the current month. -/
def lastMonthBill : Billing :=
  { id := "b2"
    patientId := "p1"
    appointmentId := none
    procedureId := none
    description := "endoscopy"
    amount := 90000
    insuranceCovered := some 0
    patientResponsibility := 90000
    status := "paid"
    billingDate := 5
    dueDate := 20
    paidDate := some 50
    paymentMethod := some "card"
    notes := none
    createdAt := 0
    updatedAt := 0 }

/-- A store with billing rows none of which qualify for the current month
(start of month = 100). -/
def dbBilling : DB :=
  { users := [drSarah], patients := [maria], appointments := [],
    procedures := [], billing := [unpaidBill, lastMonthBill] }

/-- C4 witness: with zero qualifying rows the revenue is the number 0. -/
theorem monthlyRevenue_spec_witness :
    (getDashboardStats dbBilling 0 86400000 100).monthlyRevenue = 0 :=
  (monthlyRevenue_spec dbBilling 0 86400000 100).2 (by decide)

/-! ## C5 — login -/

/-- C5: the login route answers 401 exactly when the username resolves to
no user or the stored password differs from the submitted one; on a match
it answers 200 with the password-stripped user object. -/
theorem loginHandler_spec (db : DB) (username password : String) :
    ((loginHandler db username password).1 = 401 ↔
        getUserByUsername db username = none
      ∨ ∃ u, getUserByUsername db username = some u ∧ u.password ≠ password)
  ∧ (getUserByUsername db username = none ↔ ∀ u ∈ db.users, u.username ≠ username)
  ∧ ∀ u, getUserByUsername db username = some u → u.password = password →
      loginHandler db username password = (200, some (stripPassword u)) := by
  refine ⟨?_, ?_, ?_⟩
  · cases hu : getUserByUsername db username with
    | none => simp [loginHandler, hu]
    | some usr =>
        by_cases hpw : usr.password = password
        · simp [loginHandler, hu, hpw]
        · simp [loginHandler, hu, hpw]
  · simp [getUserByUsername, List.find?_eq_none]
  · intro u hu hpw
    simp [loginHandler, hu, hpw]

/-- A store holding only the seeded doctor account. -/
def dbUsers : DB :=
  { users := [drSarah], patients := [], appointments := [],
    procedures := [], billing := [] }

/-- C5 witness: the seeded credentials log in and the response carries no
password field. -/
theorem loginHandler_spec_witness :
    loginHandler dbUsers "doctor" "password" = (200, some (stripPassword drSarah)) :=
  (loginHandler_spec dbUsers "doctor" "password").2.2 drSarah (by decide) (by decide)

/-! ## C7 — failed validation never reaches storage -/

/-- C7: when the body fails schema validation the handler answers 400 with
the per-field error list and the store it returns is the one it was given —
the persistence layer is never invoked. -/
theorem validation_failure_no_side_effect {β : Type} (db : DB)
    (parseP : β → Parsed InsertPatient) (parseA : β → Parsed InsertAppointment)
    (body : β) (newId : String) (now : Int) (errs : List String) :
    (parseP body = .invalid errs →
      postPatientsHandler db parseP body newId now = (400, some errs, db))
  ∧ (parseA body = .invalid errs →
      postAppointmentsHandler db parseA body newId now = (400, some errs, db)) := by
  constructor
  · intro h
    simp [postPatientsHandler, h]
  · intro h
    simp [postAppointmentsHandler, h]

/-- C7 witness with a concrete failing validator. -/
theorem validation_failure_no_side_effect_witness :
    postPatientsHandler dbClinic (fun _ : Unit => Parsed.invalid ["firstName: Required"])
        () "p9" 3
      = (400, some ["firstName: Required"], dbClinic) :=
  (validation_failure_no_side_effect dbClinic
      (fun _ : Unit => Parsed.invalid ["firstName: Required"])
      (fun _ : Unit => Parsed.invalid ["firstName: Required"])
      () "p9" 3 ["firstName: Required"]).1 rfl

/-! ## C8 — patient search -/

theorem mem_searchPatients (db : DB) (q : String) (p : Patient) :
    p ∈ searchPatients db q ↔
      p ∈ db.patients ∧ p.isActive = true ∧
        ((strLower q).data <:+: (strLower p.firstName).data ∨
         (strLower q).data <:+: (strLower p.lastName).data ∨
         (strLower q).data <:+: p.phone.data ∨
         ∃ e, p.email = some e ∧ (strLower q).data <:+: (strLower e).data) := by
  cases hpe : p.email with
  | none =>
      simp [searchPatients, List.mem_filter, searchMatch, hpe, strContains,
        and_assoc, or_assoc]
  | some e =>
      simp [searchPatients, List.mem_filter, searchMatch, hpe, strContains,
        and_assoc, or_assoc]

/-- C8: search is a case-insensitive substring match on first name, last
name and email, a partial match on the stored phone, restricted to active
patients; concretely the active "Maria Silva" row is found by "mar", by
"SILVA" and by a phone substring, and not by an unrelated string. -/
theorem searchPatients_spec :
    (∀ (db : DB) (q : String) (p : Patient),
        p ∈ searchPatients db q ↔
          p ∈ db.patients ∧ p.isActive = true ∧
            ((strLower q).data <:+: (strLower p.firstName).data ∨
             (strLower q).data <:+: (strLower p.lastName).data ∨
             (strLower q).data <:+: p.phone.data ∨
             ∃ e, p.email = some e ∧ (strLower q).data <:+: (strLower e).data))
  ∧ maria ∈ searchPatients dbClinic "mar"
  ∧ maria ∈ searchPatients dbClinic "SILVA"
  ∧ maria ∈ searchPatients dbClinic "1234"
  ∧ maria ∉ searchPatients dbClinic "xyz" := by
  refine ⟨mem_searchPatients, ?_, ?_, ?_, ?_⟩ <;> decide

/-- C8 witness at the concrete store. -/
theorem searchPatients_spec_witness :
    maria ∈ searchPatients dbClinic "mar" ∧ maria ∉ searchPatients dbClinic "xyz" :=
  ⟨searchPatients_spec.2.1, searchPatients_spec.2.2.2.2⟩
